import Mathlib

/-!
Shallow embedding of the funntour-backend registry services.

The database session is modelled as explicit lists of rows; timestamps are
naturals; each service method of the Python source becomes a Lean function
over that state.  External collaborators (bcrypt, PyJWT) are modelled by
their contracts, as the spec treats them as primitives.
-/

set_option maxRecDepth 4000

/-- Model of Python `str.lower()` (ASCII fragment, which is what the stored
codes and names in this repository exercise). -/
def pyLower (s : String) : String :=
  String.mk (s.toList.map Char.toLower)

/-- Model of Python `str.upper()` (ASCII fragment). -/
def pyUpper (s : String) : String :=
  String.mk (s.toList.map Char.toUpper)

/-- Model of Python `str.strip()`: drop whitespace from both ends. -/
def pyStrip (s : String) : String :=
  String.mk (((s.toList.dropWhile Char.isWhitespace).reverse.dropWhile
    Char.isWhitespace).reverse)

/-- Character-list worker for `pyTitle`: the flag records whether the
previous character was alphabetic (Python: cased). -/
def pyTitleAux : Bool → List Char → List Char
  | _, [] => []
  | prevAlpha, c :: cs =>
    if c.isAlpha then
      (if prevAlpha then c.toLower else c.toUpper) :: pyTitleAux true cs
    else
      c :: pyTitleAux false cs

/-- Model of Python `str.title()`: first letter of each alphabetic run is
uppercased, the rest lowercased (ASCII fragment). -/
def pyTitle (s : String) : String :=
  String.mk (pyTitleAux false s.toList)

/-- Model of the Python digits-only join over `filter(str.isdigit, v)`. -/
def digitsOnly (s : String) : String :=
  String.mk (s.toList.filter Char.isDigit)

/-- Row of table `pais` (models/pais.py). -/
structure Pais where
  id : Nat
  descricao : String
  sigla : String
  dt_criacao : Nat
  dt_atualizacao : Nat
  dt_exclusao : Option Nat
deriving Repr, DecidableEq

/-- Schema `CreatePais` after pydantic validation (schemas/pais.py). -/
structure CreatePais where
  descricao : String
  sigla : String
deriving Repr, DecidableEq

/-- Pydantic validators of `PaisBase`: `descricao` is stripped and
title-cased, `sigla` stripped and uppercased. -/
def mkCreatePais (descricao sigla : String) : CreatePais :=
  { descricao := pyTitle (pyStrip descricao)
    sigla := pyUpper (pyStrip sigla) }

/-- Schema `UpdatePais`: optional fields, same validators on present ones. -/
structure UpdatePais where
  descricao : Option String
  sigla : Option String
deriving Repr, DecidableEq

/-- Replace the first list entry satisfying `pred` by its image under `f`
(models an in-place ORM row mutation followed by commit). -/
def updateFirst {α : Type} (pred : α → Bool) (f : α → α) : List α → List α
  | [] => []
  | x :: xs => if pred x then f x :: xs else x :: updateFirst pred f xs

namespace PaisService

/-- `PaisService.get_all`: non-deleted rows, with offset and limit. -/
def get_all (db : List Pais) (skip : Nat := 0) (limit : Nat := 100) : List Pais :=
  ((db.filter fun p => p.dt_exclusao.isNone).drop skip).take limit

/-- `PaisService.get_by_id`: first non-deleted row with the given id. -/
def get_by_id (db : List Pais) (pais_id : Nat) : Option Pais :=
  db.find? fun p => p.id == pais_id && p.dt_exclusao.isNone

/-- Row predicate of the duplicate query in `PaisService.check_duplicate`. -/
def dupPred (descricao sigla : String) (exclude_id : Option Nat) (p : Pais) : Bool :=
  (pyLower p.descricao == pyLower descricao || pyLower p.sigla == pyLower sigla)
    && p.dt_exclusao.isNone
    && (match exclude_id with | none => true | some i => p.id != i)

/-- `PaisService.check_duplicate`: first colliding non-deleted sibling
decides the outcome; name collision is reported before code collision. -/
def check_duplicate (db : List Pais) (descricao sigla : String)
    (exclude_id : Option Nat := none) : Bool × Option String :=
  match db.find? (dupPred descricao sigla exclude_id) with
  | some existing =>
    if pyLower existing.descricao == pyLower descricao then
      (true, some ("Já existe um país cadastrado com o nome \x27" ++ descricao ++ "\x27"))
    else
      (true, some ("Já existe um país cadastrado com a sigla \x27" ++ sigla ++ "\x27"))
  | none => (false, none)

/-- `PaisService.create`: duplicate check, then insert with a fresh id. -/
def create (db : List Pais) (nextId now : Nat) (data : CreatePais) :
    (Sum String Pais) × List Pais :=
  match check_duplicate db data.descricao data.sigla with
  | (true, msg) => (.inl (msg.getD ""), db)
  | (false, _) =>
    let pais : Pais :=
      { id := nextId
        descricao := data.descricao
        sigla := data.sigla
        dt_criacao := now
        dt_atualizacao := now
        dt_exclusao := none }
    (.inr pais, db ++ [pais])

/-- `PaisService.update`: not-found short-circuit, no-op shortcut, duplicate
check excluding the row itself, then field-wise mutation. -/
def update (db : List Pais) (now pais_id : Nat) (data : UpdatePais) :
    (Option (Sum String Pais)) × List Pais :=
  match get_by_id db pais_id with
  | none => (none, db)
  | some pais =>
    if (data.descricao == none || data.descricao == some pais.descricao)
        && (data.sigla == none || data.sigla == some pais.sigla) then
      (some (.inr pais), db)
    else
      let descricao_to_check := data.descricao.getD pais.descricao
      let sigla_to_check := data.sigla.getD pais.sigla
      match check_duplicate db descricao_to_check sigla_to_check (some pais_id) with
      | (true, msg) => (some (.inl (msg.getD "")), db)
      | (false, _) =>
        let pais' : Pais :=
          { pais with
              descricao := descricao_to_check
              sigla := sigla_to_check
              dt_atualizacao := now }
        (some (.inr pais'),
          updateFirst (fun p => p.id == pais_id && p.dt_exclusao.isNone)
            (fun _ => pais') db)

/-- `PaisService.delete`: soft delete of the fetched row. -/
def delete (db : List Pais) (now pais_id : Nat) : Bool × List Pais :=
  match get_by_id db pais_id with
  | none => (false, db)
  | some _ =>
    (true,
      updateFirst (fun p => p.id == pais_id && p.dt_exclusao.isNone)
        (fun p => { p with dt_exclusao := some now }) db)

end PaisService

/-- Row of table `estado` (models/estado.py). -/
structure Estado where
  id : Nat
  pais_id : Nat
  descricao : String
  sigla : String
  dt_criacao : Nat
  dt_atualizacao : Nat
  dt_exclusao : Option Nat
deriving Repr, DecidableEq

/-- Schema `CreateEstado` after pydantic validation (schemas/estado.py). -/
structure CreateEstado where
  pais_id : Nat
  descricao : String
  sigla : String
deriving Repr, DecidableEq

/-- Pydantic validators of `EstadoBase`. -/
def mkCreateEstado (pais_id : Nat) (descricao sigla : String) : CreateEstado :=
  { pais_id := pais_id
    descricao := pyTitle (pyStrip descricao)
    sigla := pyUpper (pyStrip sigla) }

/-- Schema `UpdateEstado`. -/
structure UpdateEstado where
  pais_id : Option Nat
  descricao : Option String
  sigla : Option String
deriving Repr, DecidableEq

namespace EstadoService

/-- `EstadoService.get_all`. -/
def get_all (db : List Estado) (skip : Nat := 0) (limit : Nat := 100) : List Estado :=
  ((db.filter fun e => e.dt_exclusao.isNone).drop skip).take limit

/-- `EstadoService.get_by_id`. -/
def get_by_id (db : List Estado) (estado_id : Nat) : Option Estado :=
  db.find? fun e => e.id == estado_id && e.dt_exclusao.isNone

/-- `EstadoService.get_by_pais_id`: non-deleted states of one country. -/
def get_by_pais_id (db : List Estado) (pais_id : Nat) : List Estado :=
  db.filter fun e => e.pais_id == pais_id && e.dt_exclusao.isNone

/-- Row predicate of the duplicate query in `EstadoService.check_duplicate`. -/
def dupPred (pais_id : Nat) (descricao sigla : String) (exclude_id : Option Nat)
    (e : Estado) : Bool :=
  e.pais_id == pais_id
    && (pyLower e.descricao == pyLower descricao || pyLower e.sigla == pyLower sigla)
    && e.dt_exclusao.isNone
    && (match exclude_id with | none => true | some i => e.id != i)

/-- `EstadoService.check_duplicate`: scoped to the same country. -/
def check_duplicate (db : List Estado) (pais_id : Nat) (descricao sigla : String)
    (exclude_id : Option Nat := none) : Bool × Option String :=
  match db.find? (dupPred pais_id descricao sigla exclude_id) with
  | some existing =>
    if pyLower existing.descricao == pyLower descricao then
      (true, some ("Já existe um estado cadastrado com o nome \x27" ++ descricao
        ++ "\x27 para o país selecionado"))
    else
      (true, some ("Já existe um estado cadastrado com a sigla \x27" ++ sigla
        ++ "\x27 para o país selecionado"))
  | none => (false, none)

/-- `EstadoService.create`: duplicate check, insert, then a re-fetch of the
inserted row; `none` models the exception path taken when the re-fetch
finds nothing (the logging line would fault on the missing row). -/
def create (db : List Estado) (nextId now : Nat) (data : CreateEstado) :
    (Option (Sum String Estado)) × List Estado :=
  match check_duplicate db data.pais_id data.descricao data.sigla with
  | (true, msg) => (some (.inl (msg.getD "")), db)
  | (false, _) =>
    let estado : Estado :=
      { id := nextId
        pais_id := data.pais_id
        descricao := data.descricao
        sigla := data.sigla
        dt_criacao := now
        dt_atualizacao := now
        dt_exclusao := none }
    let db' := db ++ [estado]
    match get_by_id db' nextId with
    | some fetched => (some (.inr fetched), db')
    | none => (none, db)

/-- `EstadoService.update`. -/
def update (db : List Estado) (now estado_id : Nat) (data : UpdateEstado) :
    (Option (Sum String Estado)) × List Estado :=
  match get_by_id db estado_id with
  | none => (none, db)
  | some estado =>
    if (data.pais_id == none || data.pais_id == some estado.pais_id)
        && (data.descricao == none || data.descricao == some estado.descricao)
        && (data.sigla == none || data.sigla == some estado.sigla) then
      (some (.inr estado), db)
    else
      let pais_id_to_check := data.pais_id.getD estado.pais_id
      let descricao_to_check := data.descricao.getD estado.descricao
      let sigla_to_check := data.sigla.getD estado.sigla
      match check_duplicate db pais_id_to_check descricao_to_check sigla_to_check
          (some estado_id) with
      | (true, msg) => (some (.inl (msg.getD "")), db)
      | (false, _) =>
        let estado' : Estado :=
          { estado with
              pais_id := pais_id_to_check
              descricao := descricao_to_check
              sigla := sigla_to_check
              dt_atualizacao := now }
        let db' :=
          updateFirst (fun e => e.id == estado_id && e.dt_exclusao.isNone)
            (fun _ => estado') db
        match get_by_id db' estado_id with
        | some fetched => (some (.inr fetched), db')
        | none => (none, db)

/-- `EstadoService.delete`: soft delete of the fetched row. -/
def delete (db : List Estado) (now estado_id : Nat) : Bool × List Estado :=
  match get_by_id db estado_id with
  | none => (false, db)
  | some _ =>
    (true,
      updateFirst (fun e => e.id == estado_id && e.dt_exclusao.isNone)
        (fun e => { e with dt_exclusao := some now }) db)

end EstadoService

/-- Row of table `cidade` (models/cidade.py); `sigla` is nullable. -/
structure Cidade where
  id : Nat
  estado_id : Nat
  descricao : String
  sigla : Option String
  dt_criacao : Nat
  dt_atualizacao : Nat
  dt_exclusao : Option Nat
deriving Repr, DecidableEq

/-- Schema `CreateCidade` after pydantic validation (schemas/cidade.py). -/
structure CreateCidade where
  estado_id : Nat
  descricao : String
  sigla : Option String
deriving Repr, DecidableEq

/-- Pydantic validator of `CidadeBase`: only `descricao` is normalized on
create (the base schema has no validator for `sigla`). -/
def mkCreateCidade (estado_id : Nat) (descricao : String) (sigla : Option String) :
    CreateCidade :=
  { estado_id := estado_id
    descricao := pyTitle (pyStrip descricao)
    sigla := sigla }

/-- Schema `UpdateCidade`. -/
structure UpdateCidade where
  estado_id : Option Nat
  descricao : Option String
  sigla : Option String
deriving Repr, DecidableEq

namespace CidadeService

/-- `CidadeService.get_all`. -/
def get_all (db : List Cidade) (skip : Nat := 0) (limit : Nat := 100) : List Cidade :=
  ((db.filter fun c => c.dt_exclusao.isNone).drop skip).take limit

/-- `CidadeService.get_by_id`. -/
def get_by_id (db : List Cidade) (cidade_id : Nat) : Option Cidade :=
  db.find? fun c => c.id == cidade_id && c.dt_exclusao.isNone

/-- `CidadeService.get_by_estado_id`. -/
def get_by_estado_id (db : List Cidade) (estado_id : Nat) : List Cidade :=
  db.filter fun c => c.estado_id == estado_id && c.dt_exclusao.isNone

/-- Row predicate of the name-duplicate query in ``check_duplicate``. -/
def dupPredNome (estado_id : Nat) (descricao : String) (exclude_id : Option Nat)
    (c : Cidade) : Bool :=
  c.estado_id == estado_id
    && pyLower c.descricao == pyLower descricao
    && c.dt_exclusao.isNone
    && (match exclude_id with | none => true | some i => c.id != i)

/-- Row predicate of the code-duplicate query: `lower(Cidade.sigla)` is SQL
NULL for a row without a code, which never compares equal. -/
def dupPredSigla (estado_id : Nat) (sigla : String) (exclude_id : Option Nat)
    (c : Cidade) : Bool :=
  c.estado_id == estado_id
    && (match c.sigla with | some cs => pyLower cs == pyLower sigla | none => false)
    && c.dt_exclusao.isNone
    && (match exclude_id with | none => true | some i => c.id != i)

/-- `CidadeService.check_duplicate`: the name query runs first; the code
query runs only when a truthy (present, non-empty) `sigla` is supplied. -/
def check_duplicate (db : List Cidade) (estado_id : Nat) (descricao : String)
    (sigla : Option String := none) (exclude_id : Option Nat := none) :
    Bool × Option String :=
  match db.find? (dupPredNome estado_id descricao exclude_id) with
  | some _ =>
    (true, some ("Já existe uma cidade cadastrada com o nome \x27" ++ descricao
      ++ "\x27 para o estado selecionado"))
  | none =>
    match sigla with
    | some s =>
      if s ≠ "" then
        match db.find? (dupPredSigla estado_id s exclude_id) with
        | some _ =>
          (true, some ("Já existe uma cidade cadastrada com a sigla \x27" ++ s
            ++ "\x27 para o estado selecionado"))
        | none => (false, none)
      else (false, none)
    | none => (false, none)

/-- `CidadeService.create`: mirrors `EstadoService.create`, including the
re-fetch of the inserted row. -/
def create (db : List Cidade) (nextId now : Nat) (data : CreateCidade) :
    (Option (Sum String Cidade)) × List Cidade :=
  match check_duplicate db data.estado_id data.descricao data.sigla with
  | (true, msg) => (some (.inl (msg.getD "")), db)
  | (false, _) =>
    let cidade : Cidade :=
      { id := nextId
        estado_id := data.estado_id
        descricao := data.descricao
        sigla := data.sigla
        dt_criacao := now
        dt_atualizacao := now
        dt_exclusao := none }
    let db' := db ++ [cidade]
    match get_by_id db' nextId with
    | some fetched => (some (.inr fetched), db')
    | none => (none, db)

/-- `CidadeService.update`. -/
def update (db : List Cidade) (now cidade_id : Nat) (data : UpdateCidade) :
    (Option (Sum String Cidade)) × List Cidade :=
  match get_by_id db cidade_id with
  | none => (none, db)
  | some cidade =>
    if (data.estado_id == none || data.estado_id == some cidade.estado_id)
        && (data.descricao == none || data.descricao == some cidade.descricao)
        && (data.sigla == none || data.sigla == cidade.sigla) then
      (some (.inr cidade), db)
    else
      let estado_id_to_check := data.estado_id.getD cidade.estado_id
      let descricao_to_check := data.descricao.getD cidade.descricao
      let sigla_to_check :=
        match data.sigla with | some s => some s | none => cidade.sigla
      match check_duplicate db estado_id_to_check descricao_to_check sigla_to_check
          (some cidade_id) with
      | (true, msg) => (some (.inl (msg.getD "")), db)
      | (false, _) =>
        let cidade' : Cidade :=
          { cidade with
              estado_id := estado_id_to_check
              descricao := descricao_to_check
              sigla := (match data.sigla with | some s => some s | none => cidade.sigla)
              dt_atualizacao := now }
        let db' :=
          updateFirst (fun c => c.id == cidade_id && c.dt_exclusao.isNone)
            (fun _ => cidade') db
        match get_by_id db' cidade_id with
        | some fetched => (some (.inr fetched), db')
        | none => (none, db)

/-- `CidadeService.delete`: soft delete of the fetched row. -/
def delete (db : List Cidade) (now cidade_id : Nat) : Bool × List Cidade :=
  match get_by_id db cidade_id with
  | none => (false, db)
  | some _ =>
    (true,
      updateFirst (fun c => c.id == cidade_id && c.dt_exclusao.isNone)
        (fun c => { c with dt_exclusao := some now }) db)

end CidadeService

/-- Whole geographic database held by one session: the three tables a
geographic service call can see. -/
structure GeoDb where
  paises : List Pais
  estados : List Estado
  cidades : List Cidade
deriving Repr, DecidableEq

/-- `PaisService.delete` viewed on the whole session state: the commit
writes only the mutated `pais` row, so only the `pais` table changes. -/
def PaisService.delete_db (g : GeoDb) (now pais_id : Nat) : Bool × GeoDb :=
  let r := PaisService.delete g.paises now pais_id
  (r.1, { g with paises := r.2 })

/-- `EstadoService.delete` viewed on the whole session state. -/
def EstadoService.delete_db (g : GeoDb) (now estado_id : Nat) : Bool × GeoDb :=
  let r := EstadoService.delete g.estados now estado_id
  (r.1, { g with estados := r.2 })

/-- Validator `EnderecoBase.formatar_cep` (schemas/endereco.py): digits-only
extraction, reformatted to NNNNN-NNN when exactly 8 digits remain. -/
def formatar_cep (v : Option String) : Option String :=
  match v with
  | none => none
  | some s =>
    let cep_limpo := (s.toList.filter Char.isDigit)
    if cep_limpo.length = 8 then
      some (String.mk (cep_limpo.take 5) ++ "-" ++ String.mk (cep_limpo.drop 5))
    else
      some (String.mk cep_limpo)

/-- Row of table `endereco` (models/endereco.py); the audit timestamps are
omitted as no claim mentions them for addresses. -/
structure Endereco where
  id : Nat
  cidade_id : Nat
  cep : Option String
  complemento : Option String
  dt_exclusao : Option Nat
deriving Repr, DecidableEq

/-- Schema `EnderecoBase` after pydantic validation. -/
structure CreateEndereco where
  cidade_id : Nat
  cep : Option String
  complemento : Option String
deriving Repr, DecidableEq

/-- Pydantic validators of `EnderecoBase`: `cep` runs `formatar_cep`. -/
def mkCreateEndereco (cidade_id : Nat) (cep complemento : Option String) :
    CreateEndereco :=
  { cidade_id := cidade_id
    cep := formatar_cep cep
    complemento := complemento }

/-- Output of `bcrypt.hashpw`, modelled by the bcrypt contract the spec
relies on: `checkpw(plain, hashpw(p, salt))` holds exactly when the
plaintexts coincide; `salt` records the fresh salt of `gensalt()`. -/
structure BcryptHash where
  salt : Nat
  plain : String
deriving Repr, DecidableEq

/-- Row of table `usuario` (models/usuario.py); scalar fields no claim
touches (birth date, avatar, consent flags) are omitted. -/
structure Usuario where
  id : Nat
  endereco_id : Nat
  perfil_id : Nat
  cpf_cnpj : String
  senha : BcryptHash
  nome : String
  email : Option String
  telefone : Option String
  whatsapp : Option String
  dt_exclusao : Option Nat
deriving Repr, DecidableEq

/-- Payload dict handed to `UsuarioService.create` (after pydantic
validation of `CreateUsuario`); `email := none` covers both a missing key
and a `None` value, which the service treats alike (falsy). -/
structure CreateUsuarioData where
  cpf_cnpj : String
  senha : String
  nome : String
  email : Option String
  telefone : Option String
  whatsapp : Option String
  perfil_id : Nat
  endereco : CreateEndereco
deriving Repr, DecidableEq

/-- User-facing tables a `UsuarioService` session can write. -/
structure UsuarioDb where
  usuarios : List Usuario
  enderecos : List Endereco
deriving Repr, DecidableEq

namespace UsuarioService

/-- `UsuarioService._hash_password` via the bcrypt contract. -/
def hash_password (salt : Nat) (senha : String) : BcryptHash :=
  { salt := salt, plain := senha }

/-- `UsuarioService._verify_password` via the bcrypt contract. -/
def verify_password (senha_plana : String) (senha_hash : BcryptHash) : Bool :=
  senha_plana == senha_hash.plain

/-- `UsuarioService.get_all`. -/
def get_all (db : List Usuario) (skip : Nat := 0) (limit : Nat := 100) :
    List Usuario :=
  ((db.filter fun u => u.dt_exclusao.isNone).drop skip).take limit

/-- `UsuarioService.get_by_id`. -/
def get_by_id (db : List Usuario) (usuario_id : Nat) : Option Usuario :=
  db.find? fun u => u.id == usuario_id && u.dt_exclusao.isNone

/-- `UsuarioService.get_by_cpf_cnpj`: exact lookup first, then a linear
scan over all non-deleted users comparing digits-only forms. -/
def get_by_cpf_cnpj (db : List Usuario) (cpf_cnpj : String) : Option Usuario :=
  match db.find? (fun u => u.cpf_cnpj == cpf_cnpj && u.dt_exclusao.isNone) with
  | some usuario => some usuario
  | none =>
    (db.filter fun u => u.dt_exclusao.isNone).find?
      (fun u => digitsOnly u.cpf_cnpj == digitsOnly cpf_cnpj)

/-- `UsuarioService.get_by_email`: case-insensitive match; an empty query
string short-circuits to nothing, and a row with SQL NULL email never
matches (`lower(NULL)` is NULL). -/
def get_by_email (db : List Usuario) (email : String) : Option Usuario :=
  if email == "" then none
  else
    db.find? fun u =>
      (match u.email with | some e => pyLower e == pyLower email | none => false)
        && u.dt_exclusao.isNone

/-- `UsuarioService.authenticate_user`. -/
def authenticate_user (db : List Usuario) (cpf_cnpj senha : String) :
    Option Usuario :=
  match get_by_cpf_cnpj db cpf_cnpj with
  | none => none
  | some usuario =>
    if verify_password senha usuario.senha then some usuario else none

/-- `UsuarioService.create`: tax-id check, conditional email check, then
the address row is flushed first and the user row references its id.
Errors model the raised `ValueError` conflicts. -/
def create (db : UsuarioDb) (next_endereco_id next_usuario_id salt : Nat)
    (data : CreateUsuarioData) : Except String (Usuario × UsuarioDb) :=
  match get_by_cpf_cnpj db.usuarios data.cpf_cnpj with
  | some _ =>
    .error ("Já existe um usuário cadastrado com o CPF/CNPJ \x27"
      ++ data.cpf_cnpj ++ "\x27")
  | none =>
    let email_conflict :=
      match data.email with
      | some e => e != "" && (get_by_email db.usuarios e).isSome
      | none => false
    if email_conflict then
      .error ("Já existe um usuário cadastrado com o e-mail \x27"
        ++ (data.email.getD "") ++ "\x27")
    else
      let db_endereco : Endereco :=
        { id := next_endereco_id
          cidade_id := data.endereco.cidade_id
          cep := data.endereco.cep
          complemento := data.endereco.complemento
          dt_exclusao := none }
      let db_usuario : Usuario :=
        { id := next_usuario_id
          endereco_id := db_endereco.id
          perfil_id := data.perfil_id
          cpf_cnpj := data.cpf_cnpj
          senha := hash_password salt data.senha
          nome := data.nome
          email := data.email
          telefone := data.telefone
          whatsapp := data.whatsapp
          dt_exclusao := none }
      .ok (db_usuario,
        { usuarios := db.usuarios ++ [db_usuario]
          enderecos := db.enderecos ++ [db_endereco] })

/-- `UsuarioService.change_password`: `false` when the user is missing, a
`ValueError` when the current password does not verify, otherwise the
rehash is written to every row with the user id. -/
def change_password (db : List Usuario) (usuario_id salt : Nat)
    (senha_atual nova_senha : String) : Except String (Bool × List Usuario) :=
  match get_by_id db usuario_id with
  | none => .ok (false, db)
  | some db_usuario =>
    if !(verify_password senha_atual db_usuario.senha) then
      .error "Senha atual incorreta"
    else
      let senha_hash := hash_password salt nova_senha
      .ok (true,
        db.map fun u => if u.id == usuario_id then { u with senha := senha_hash } else u)

/-- `UsuarioService.find_user_by_credential`: tax-id first, then email. -/
def find_user_by_credential (db : List Usuario) (credential : String) :
    Option Usuario :=
  match get_by_cpf_cnpj db credential with
  | some usuario => some usuario
  | none => get_by_email db credential

end UsuarioService

/-- Claims carried by a password-reset token: `sub` is the user id (the
source stores `str(usuario.id)` and parses it back with `int`, which
round-trips), `exp` a POSIX second count, `jti` the random hex nonce. -/
structure TokenPayload where
  sub : Nat
  exp : Nat
  jti : String
deriving Repr, DecidableEq

/-- HS256 signature, modelled by the MAC contract PyJWT relies on: a tag
is forgeable only by knowing the key, so a tag is identified with the
(key, payload) pair that produced it. -/
def hmacSig (secret : String) (payload : TokenPayload) : String × TokenPayload :=
  (secret, payload)

/-- Wire form of a JWT as `jwt.decode` sees it: either a structurally
valid token carrying a payload and a tag, or an undecodable string. -/
inductive Jwt where
  | signed (payload : TokenPayload) (sig : String × TokenPayload)
  | malformed (raw : String)
deriving Repr, DecidableEq

/-- Model of `jwt.encode(token_data, secret, algorithm="HS256")`. -/
def jwt_encode (secret : String) (payload : TokenPayload) : Jwt :=
  .signed payload (hmacSig secret payload)

/-- Model of `jwt.decode(token, secret, algorithms=["HS256"])` at time
`now`: raises (here `none`) on a malformed token, a bad signature, or an
`exp` claim not in the future — PyJWT validates `exp` itself. -/
def jwt_decode (now : Nat) (secret : String) (token : Jwt) : Option TokenPayload :=
  match token with
  | .malformed _ => none
  | .signed payload sig =>
    if sig = hmacSig secret payload then
      if payload.exp ≤ now then none else some payload
    else none

/-- Hard-coded signing key of usuario.py. -/
def SECRET_KEY : String := "funntour-app-secret-key"

/-- Result dict of `generate_password_reset_token`. -/
structure ResetTokenOut where
  token : Jwt
  usuario_id : Nat
  usuario_nome : String
  usuario_cpf_cnpj : String
  usuario_email : Option String
  usuario_whatsapp : Option String
  expira_em : Nat
deriving Repr, DecidableEq

namespace UsuarioService

/-- `UsuarioService.generate_password_reset_token` at time `now` with the
fresh nonce `jti` drawn by `secrets.token_hex(8)`. -/
def generate_password_reset_token (db : List Usuario) (now : Nat) (jti : String)
    (credential : String) : Option ResetTokenOut :=
  match find_user_by_credential db credential with
  | none => none
  | some usuario =>
    let expiration := now + 10 * 60
    let token_data : TokenPayload := { sub := usuario.id, exp := expiration, jti := jti }
    let token := jwt_encode SECRET_KEY token_data
    some
      { token := token
        usuario_id := usuario.id
        usuario_nome := usuario.nome
        usuario_cpf_cnpj := usuario.cpf_cnpj
        usuario_email := usuario.email
        usuario_whatsapp := usuario.whatsapp
        expira_em := expiration }

/-- `UsuarioService.verify_password_reset_token` at time `now`: any decode
failure is caught and folded into `none`; a decoded payload is checked
once more against the clock before the embedded id is returned. -/
def verify_password_reset_token (now : Nat) (token : Jwt) : Option Nat :=
  match jwt_decode now SECRET_KEY token with
  | none => none
  | some payload => if now > payload.exp then none else some payload.sub

end UsuarioService

/-- Example user row used by the closed witnesses. -/
def exUsuario : Usuario :=
  { id := 7
    endereco_id := 1
    perfil_id := 1
    cpf_cnpj := "123.456.789-00"
    senha := { salt := 3, plain := "hunter2" }
    nome := "Ana"
    email := some "ana@example.com"
    telefone := none
    whatsapp := none
    dt_exclusao := none }

/-- Deleted example row used by the closed witnesses. -/
def exPaisDeleted : Pais :=
  { id := 3
    descricao := "Peru"
    sigla := "PE"
    dt_criacao := 0
    dt_atualizacao := 0
    dt_exclusao := some 50 }

/-- Live example row used by the closed witnesses. -/
def exPaisAlive : Pais :=
  { id := 2
    descricao := "Chile"
    sigla := "CL"
    dt_criacao := 0
    dt_atualizacao := 0
    dt_exclusao := none }

/-- Example state row (child of `exPaisAlive`) for the closed witnesses. -/
def exEstado : Estado :=
  { id := 11
    pais_id := 2
    descricao := "Santiago"
    sigla := "ST"
    dt_criacao := 0
    dt_atualizacao := 0
    dt_exclusao := none }

/-- Example geographic database for the closed witnesses. -/
def exGeoDb : GeoDb :=
  { paises := [exPaisAlive]
    estados := [exEstado]
    cidades := [] }

/-! ### Helper lemmas -/

/-- Filtering by a predicate every hit of `p` already satisfies does not
change the first hit of `p`. -/
theorem find?_filter_of_imp {α : Type} (l : List α) (alive p : α → Bool)
    (h : ∀ a, p a = true → alive a = true) :
    (l.filter alive).find? p = l.find? p := by
  induction l with
  | nil => rfl
  | cons x xs ih =>
    cases hax : alive x with
    | true => simp [List.filter_cons, hax, List.find?_cons, ih]
    | false =>
      have hpx : p x = false := by
        cases hpx : p x with
        | true => rw [h x hpx] at hax; exact absurd hax (by simp)
        | false => rfl
      simp [List.filter_cons, hax, List.find?_cons, hpx, ih]

/-- `updateFirst` rewrites exactly the position of the first hit. -/
theorem updateFirst_eq_set {α : Type} (l : List α) (p : α → Bool) (f : α → α)
    (a : α) (h : l.find? p = some a) :
    ∃ i, l.get? i = some a ∧ updateFirst p f l = l.set i (f a) := by
  induction l with
  | nil => simp [List.find?] at h
  | cons x xs ih =>
    rw [List.find?_cons] at h
    cases hx : p x with
    | true =>
      rw [hx] at h
      simp only at h
      cases h
      exact ⟨0, rfl, by simp [updateFirst, hx]⟩
    | false =>
      rw [hx] at h
      simp only at h
      obtain ⟨i, hg, hu⟩ := ih h
      exact ⟨i + 1, by simpa using hg, by simp [updateFirst, hx, hu]⟩

/-- Characterization of the two-phase tax-id lookup: it hits exactly when
some non-deleted user agrees on the digits-only form. -/
theorem get_by_cpf_cnpj_isSome_iff (db : List Usuario) (cpf : String) :
    (UsuarioService.get_by_cpf_cnpj db cpf).isSome = true ↔
      ∃ u ∈ db, u.dt_exclusao = none ∧ digitsOnly u.cpf_cnpj = digitsOnly cpf := by
  unfold UsuarioService.get_by_cpf_cnpj
  cases hex : db.find? (fun u => u.cpf_cnpj == cpf && u.dt_exclusao.isNone) with
  | some u =>
    simp only [Option.isSome_some, true_iff]
    have hp := List.find?_some hex
    have hm := List.mem_of_find?_eq_some hex
    simp only [Bool.and_eq_true, beq_iff_eq, Option.isNone_iff_eq_none] at hp
    exact ⟨u, hm, hp.2, by rw [hp.1]⟩
  | none =>
    simp only
    rw [List.find?_isSome]
    constructor
    · rintro ⟨u, hmem, hp⟩
      rw [List.mem_filter] at hmem
      simp only [beq_iff_eq] at hp
      exact ⟨u, hmem.1, by simpa using hmem.2, hp⟩
    · rintro ⟨u, hmem, halive, hdig⟩
      refine ⟨u, List.mem_filter.mpr ⟨hmem, by simp [halive]⟩, by simp [hdig]⟩

/-- Characterization of the case-insensitive email lookup for a non-empty
query string. -/
theorem get_by_email_isSome_iff (db : List Usuario) (email : String)
    (hne : email ≠ "") :
    (UsuarioService.get_by_email db email).isSome = true ↔
      ∃ u ∈ db, u.dt_exclusao = none ∧
        ∃ eu, u.email = some eu ∧ pyLower eu = pyLower email := by
  unfold UsuarioService.get_by_email
  rw [if_neg (by simpa using hne)]
  rw [List.find?_isSome]
  constructor
  · rintro ⟨u, hmem, hp⟩
    simp only [Bool.and_eq_true, Option.isNone_iff_eq_none] at hp
    obtain ⟨hmatch, halive⟩ := hp
    cases he : u.email with
    | none => rw [he] at hmatch; simp at hmatch
    | some eu =>
      rw [he] at hmatch
      simp only [beq_iff_eq] at hmatch
      exact ⟨u, hmem, halive, eu, he, hmatch⟩
  · rintro ⟨u, hmem, halive, eu, he, hlow⟩
    exact ⟨u, hmem, by simp [he, hlow, halive]⟩

/-- Empty-query email lookup returns nothing (falsy short-circuit). -/
theorem get_by_email_empty (db : List Usuario) :
    UsuarioService.get_by_email db "" = none := rfl

/-- Rewriting the stored password hash of one user commutes with the tax-id
lookup: the lookup predicates only read fields the rewrite preserves. -/
theorem get_by_cpf_cnpj_map_senha (db : List Usuario) (cpf : String)
    (uid : Nat) (h : BcryptHash) :
    UsuarioService.get_by_cpf_cnpj
        (db.map fun v => if v.id == uid then { v with senha := h } else v) cpf
      = (UsuarioService.get_by_cpf_cnpj db cpf).map
          (fun v => if v.id == uid then { v with senha := h } else v) := by
  set f : Usuario → Usuario := fun v => if v.id == uid then { v with senha := h } else v with hf
  have hcpf : ∀ v, (f v).cpf_cnpj = v.cpf_cnpj := by
    intro v; simp only [hf]; split <;> rfl
  have hexc : ∀ v, (f v).dt_exclusao = v.dt_exclusao := by
    intro v; simp only [hf]; split <;> rfl
  have h1 : ((fun u => u.cpf_cnpj == cpf && u.dt_exclusao.isNone) ∘ f)
      = fun u => u.cpf_cnpj == cpf && u.dt_exclusao.isNone := by
    funext v; simp [Function.comp, hcpf v, hexc v]
  have h2 : ((fun u : Usuario => u.dt_exclusao.isNone) ∘ f)
      = fun u : Usuario => u.dt_exclusao.isNone := by
    funext v; simp [Function.comp, hexc v]
  have h3 : ((fun u => digitsOnly u.cpf_cnpj == digitsOnly cpf) ∘ f)
      = fun u => digitsOnly u.cpf_cnpj == digitsOnly cpf := by
    funext v; simp [Function.comp, hcpf v]
  unfold UsuarioService.get_by_cpf_cnpj
  rw [List.find?_map, h1, List.filter_map, h2, List.find?_map, h3]
  cases List.find? (fun u => u.cpf_cnpj == cpf && u.dt_exclusao.isNone) db with
  | some u => simp
  | none =>
    simp only [Option.map_none]
    cases (db.filter fun u => u.dt_exclusao.isNone).find?
        (fun u => digitsOnly u.cpf_cnpj == digitsOnly cpf) with
    | some u => simp
    | none => simp

/-- Characterization of the conflict outcomes of `UsuarioService.create`:
it raises exactly on a digits-only tax-id clash or, when a non-empty email
is supplied, a case-insensitive email clash with a non-deleted user. -/
theorem usuario_create_error_iff (db : UsuarioDb) (nE nU salt : Nat)
    (data : CreateUsuarioData) :
    (∃ msg, UsuarioService.create db nE nU salt data = .error msg) ↔
      ((∃ u ∈ db.usuarios, u.dt_exclusao = none ∧
          digitsOnly u.cpf_cnpj = digitsOnly data.cpf_cnpj)
        ∨ (∃ e, data.email = some e ∧ e ≠ "" ∧
            ∃ v ∈ db.usuarios, v.dt_exclusao = none ∧
              ∃ ev, v.email = some ev ∧ pyLower ev = pyLower e)) := by
  unfold UsuarioService.create
  cases hcpf : UsuarioService.get_by_cpf_cnpj db.usuarios data.cpf_cnpj with
  | some u =>
    simp only
    constructor
    · intro _
      exact Or.inl ((get_by_cpf_cnpj_isSome_iff db.usuarios data.cpf_cnpj).mp
        (by rw [hcpf]; rfl))
    · intro _; exact ⟨_, rfl⟩
  | none =>
    have hnocpf : ¬ ∃ u ∈ db.usuarios, u.dt_exclusao = none ∧
        digitsOnly u.cpf_cnpj = digitsOnly data.cpf_cnpj := by
      intro hex
      have := (get_by_cpf_cnpj_isSome_iff db.usuarios data.cpf_cnpj).mpr hex
      rw [hcpf] at this
      exact absurd this (by simp)
    cases hmail : data.email with
    | none =>
      simp only [hmail]
      constructor
      · rintro ⟨msg, hmsg⟩; exact absurd hmsg (by simp)
      · rintro (hex | ⟨e, he, _⟩)
        · exact absurd hex hnocpf
        · exact absurd he (by simp)
    | some e =>
      by_cases he : e = ""
      · subst he
        simp only [hmail]
        constructor
        · rintro ⟨msg, hmsg⟩; exact absurd hmsg (by simp)
        · rintro (hex | ⟨e, he, hne, _⟩)
          · exact absurd hex hnocpf
          · cases he; exact absurd rfl hne
      · cases hsome : (UsuarioService.get_by_email db.usuarios e).isSome with
        | true =>
          have hcond : (e != "" && (UsuarioService.get_by_email db.usuarios e).isSome) = true := by
            simp [he, hsome]
          simp only [hmail, hcond, if_true]
          constructor
          · intro _
            exact Or.inr ⟨e, rfl, he, (get_by_email_isSome_iff db.usuarios e he).mp hsome⟩
          · intro _; exact ⟨_, rfl⟩
        | false =>
          have hcond : (e != "" && (UsuarioService.get_by_email db.usuarios e).isSome) = false := by
            simp [hsome]
          simp only [hmail, hcond, if_false]
          constructor
          · rintro ⟨msg, hmsg⟩; exact absurd hmsg (by simp)
          · rintro (hex | ⟨e2, he2, hne2, hv⟩)
            · exact absurd hex hnocpf
            · cases he2
              have hcontra := (get_by_email_isSome_iff db.usuarios e hne2).mpr hv
              rw [hsome] at hcontra
              exact absurd hcontra (by simp)

/-! ### Claim theorems -/

/-- C7: for every token and time, `verify_password_reset_token` either
returns the embedded user id (exactly when the token is well formed,
correctly signed and unexpired) or the single undifferentiated outcome
`none`; a malformed token, a bad signature and an expired token all
produce that same empty result. -/
theorem c7_verify_failures_folded (now : Nat) :
    (∀ raw, UsuarioService.verify_password_reset_token now (.malformed raw) = none)
    ∧ (∀ payload sig, sig ≠ hmacSig SECRET_KEY payload →
        UsuarioService.verify_password_reset_token now (.signed payload sig) = none)
    ∧ (∀ payload, payload.exp ≤ now →
        UsuarioService.verify_password_reset_token now
          (.signed payload (hmacSig SECRET_KEY payload)) = none)
    ∧ (∀ token i, UsuarioService.verify_password_reset_token now token = some i ↔
        ∃ payload, token = Jwt.signed payload (hmacSig SECRET_KEY payload)
          ∧ now < payload.exp ∧ i = payload.sub) := by
  refine ⟨fun raw => rfl, ?_, ?_, ?_⟩
  · intro payload sig hsig
    simp only [UsuarioService.verify_password_reset_token, jwt_decode, if_neg hsig]
  · intro payload hexp
    simp only [UsuarioService.verify_password_reset_token, jwt_decode, if_pos rfl,
      if_pos hexp, if_true, eq_self_iff_true]
  · intro token i
    cases token with
    | malformed raw =>
      constructor
      · intro h; exact absurd h (by simp [UsuarioService.verify_password_reset_token, jwt_decode])
      · rintro ⟨payload, hpay, -⟩; exact absurd hpay (by simp)
    | signed payload sig =>
      by_cases hs : sig = hmacSig SECRET_KEY payload
      · subst hs
        by_cases hexp : payload.exp ≤ now
        · simp only [UsuarioService.verify_password_reset_token, jwt_decode, if_pos rfl,
            if_pos hexp, if_true, eq_self_iff_true]
          constructor
          · intro h; exact absurd h (by simp)
          · rintro ⟨q, hq, hlt, -⟩
            injection hq with h1 h2
            subst h1
            omega
        · simp only [UsuarioService.verify_password_reset_token, jwt_decode, if_pos rfl,
            if_neg hexp, if_true, eq_self_iff_true]
          have hngt : ¬ now > payload.exp := by omega
          simp only [if_neg hngt]
          constructor
          · intro h
            injection h with h1
            exact ⟨payload, rfl, by omega, h1.symm⟩
          · rintro ⟨q, hq, hlt, hi⟩
            injection hq with h1 h2
            subst h1
            subst hi
            rfl
      · simp only [UsuarioService.verify_password_reset_token, jwt_decode, if_neg hs]
        constructor
        · intro h; exact absurd h (by simp)
        · rintro ⟨q, hq, hlt, -⟩
          injection hq with h1 h2
          subst h1
          exact absurd h2 hs

/-- Closed instance of `c7_verify_failures_folded`: a malformed token and
an expired signed token both verify to `none`. -/
theorem c7_verify_failures_folded_witness :
    UsuarioService.verify_password_reset_token 0 (.malformed "zz") = none
    ∧ UsuarioService.verify_password_reset_token 700
        (.signed { sub := 1, exp := 600, jti := "ab" }
          (hmacSig SECRET_KEY { sub := 1, exp := 600, jti := "ab" })) = none :=
  ⟨(c7_verify_failures_folded 0).1 "zz",
   (c7_verify_failures_folded 700).2.2.1 { sub := 1, exp := 600, jti := "ab" }
     (by decide)⟩

/-- C6: for a credential that resolves to a user, `generate` issues a
token whose claims are subject = user id, expiry = issuance time plus 10
minutes (600 s) and the supplied fresh nonce; `verify` at issuance time
returns the user id, and at 10 simulated minutes after issuance returns
nothing. -/
theorem c6_token_lifecycle (db : List Usuario) (now : Nat) (jti credential : String)
    (u : Usuario)
    (h : UsuarioService.find_user_by_credential db credential = some u) :
    ∃ r, UsuarioService.generate_password_reset_token db now jti credential = some r
      ∧ r.token = Jwt.signed { sub := u.id, exp := now + 10 * 60, jti := jti }
          (hmacSig SECRET_KEY { sub := u.id, exp := now + 10 * 60, jti := jti })
      ∧ r.expira_em = now + 10 * 60
      ∧ UsuarioService.verify_password_reset_token now r.token = some u.id
      ∧ UsuarioService.verify_password_reset_token (now + 10 * 60) r.token = none := by
  unfold UsuarioService.generate_password_reset_token
  rw [h]
  simp only [jwt_encode]
  refine ⟨_, rfl, rfl, rfl, ?_, ?_⟩
  · have hexp : ¬ ({ sub := u.id, exp := now + 10 * 60, jti := jti } : TokenPayload).exp ≤ now := by
      show ¬ now + 10 * 60 ≤ now
      omega
    have hngt : ¬ now > ({ sub := u.id, exp := now + 10 * 60, jti := jti } : TokenPayload).exp := by
      show ¬ now > now + 10 * 60
      omega
    simp only [UsuarioService.verify_password_reset_token, jwt_decode, if_pos rfl,
      if_neg hexp, if_neg hngt, if_true, eq_self_iff_true]
  · have hexp : ({ sub := u.id, exp := now + 10 * 60, jti := jti } : TokenPayload).exp ≤ now + 10 * 60 := by
      show now + 10 * 60 ≤ now + 10 * 60
      omega
    simp only [UsuarioService.verify_password_reset_token, jwt_decode, if_pos rfl,
      if_pos hexp, if_true, eq_self_iff_true]

/-- Closed instance of `c6_token_lifecycle` on a one-user database. -/
theorem c6_token_lifecycle_witness :
    ∃ r, UsuarioService.generate_password_reset_token [exUsuario] 1000 "ab"
        "123.456.789-00" = some r
      ∧ r.token = Jwt.signed { sub := 7, exp := 1000 + 10 * 60, jti := "ab" }
          (hmacSig SECRET_KEY { sub := 7, exp := 1000 + 10 * 60, jti := "ab" })
      ∧ r.expira_em = 1000 + 10 * 60
      ∧ UsuarioService.verify_password_reset_token 1000 r.token = some 7
      ∧ UsuarioService.verify_password_reset_token (1000 + 10 * 60) r.token = none :=
  c6_token_lifecycle [exUsuario] 1000 "ab" "123.456.789-00" exUsuario rfl

/-- C2: a soft-deleted row (non-null deleted-at) never appears in the
results of `get_all`, `get_by_id` or `get_by_pais_id`, and the duplicate
check scan is insensitive to deleted rows, for every database state. -/
theorem c2_soft_deleted_invisible (paisDb : List Pais) (estadoDb : List Estado)
    (skip limit pid qpid : Nat) (descricao sigla : String) (exclude_id : Option Nat) :
    (∀ p ∈ PaisService.get_all paisDb skip limit, p.dt_exclusao = none)
    ∧ (∀ p, PaisService.get_by_id paisDb pid = some p → p.dt_exclusao = none)
    ∧ PaisService.check_duplicate paisDb descricao sigla exclude_id
        = PaisService.check_duplicate (paisDb.filter fun p => p.dt_exclusao.isNone)
            descricao sigla exclude_id
    ∧ (∀ e ∈ EstadoService.get_by_pais_id estadoDb qpid, e.dt_exclusao = none) := by
  refine ⟨?_, ?_, ?_, ?_⟩
  · intro p hp
    unfold PaisService.get_all at hp
    have h1 := List.mem_of_mem_drop (List.mem_of_mem_take hp)
    rw [List.mem_filter] at h1
    simpa using h1.2
  · intro p hp
    unfold PaisService.get_by_id at hp
    have h1 := List.find?_some hp
    simp only [Bool.and_eq_true, Option.isNone_iff_eq_none] at h1
    exact h1.2
  · unfold PaisService.check_duplicate
    rw [find?_filter_of_imp paisDb (fun p => p.dt_exclusao.isNone)
      (PaisService.dupPred descricao sigla exclude_id) ?_]
    intro a ha
    unfold PaisService.dupPred at ha
    simp only [Bool.and_eq_true] at ha
    exact ha.1.2
  · intro e he
    unfold EstadoService.get_by_pais_id at he
    rw [List.mem_filter] at he
    simp only [Bool.and_eq_true, Option.isNone_iff_eq_none] at he
    exact he.2.2

/-- Closed instance of `c2_soft_deleted_invisible`: a database holding
only a deleted country gives the same duplicate-check outcome as the
empty database, so the deleted row is invisible to the scan. -/
theorem c2_soft_deleted_invisible_witness :
    PaisService.check_duplicate [exPaisDeleted] "Peru" "PE" none
      = PaisService.check_duplicate
          (List.filter (fun p => p.dt_exclusao.isNone) [exPaisDeleted]) "Peru" "PE" none :=
  (c2_soft_deleted_invisible [exPaisDeleted] [] 0 100 1 1 "Peru" "PE" none).2.2.1

/-- C3: for each geographic entity, an update whose fields are all absent
or equal to the current values returns the current record with the
database unchanged — for every database state, so no duplicate collision
is ever reported on the no-op path — and the all-absent update coincides
with `get_by_id`. -/
theorem c3_update_noop :
    (∀ (db : List Pais) (now pid : Nat) (data : UpdatePais) (cur : Pais),
        PaisService.get_by_id db pid = some cur →
        (data.descricao = none ∨ data.descricao = some cur.descricao) →
        (data.sigla = none ∨ data.sigla = some cur.sigla) →
        PaisService.update db now pid data = (some (.inr cur), db))
    ∧ (∀ (db : List Pais) (now pid : Nat),
        PaisService.update db now pid { descricao := none, sigla := none }
          = ((PaisService.get_by_id db pid).map .inr, db))
    ∧ (∀ (db : List Estado) (now eid : Nat) (data : UpdateEstado) (cur : Estado),
        EstadoService.get_by_id db eid = some cur →
        (data.pais_id = none ∨ data.pais_id = some cur.pais_id) →
        (data.descricao = none ∨ data.descricao = some cur.descricao) →
        (data.sigla = none ∨ data.sigla = some cur.sigla) →
        EstadoService.update db now eid data = (some (.inr cur), db))
    ∧ (∀ (db : List Estado) (now eid : Nat),
        EstadoService.update db now eid
            { pais_id := none, descricao := none, sigla := none }
          = ((EstadoService.get_by_id db eid).map .inr, db))
    ∧ (∀ (db : List Cidade) (now cid : Nat) (data : UpdateCidade) (cur : Cidade),
        CidadeService.get_by_id db cid = some cur →
        (data.estado_id = none ∨ data.estado_id = some cur.estado_id) →
        (data.descricao = none ∨ data.descricao = some cur.descricao) →
        (data.sigla = none ∨ data.sigla = cur.sigla) →
        CidadeService.update db now cid data = (some (.inr cur), db))
    ∧ (∀ (db : List Cidade) (now cid : Nat),
        CidadeService.update db now cid
            { estado_id := none, descricao := none, sigla := none }
          = ((CidadeService.get_by_id db cid).map .inr, db)) := by
  refine ⟨?_, ?_, ?_, ?_, ?_, ?_⟩
  · intro db now pid data cur hget hd hs
    have hcond : ((data.descricao == none || data.descricao == some cur.descricao)
        && (data.sigla == none || data.sigla == some cur.sigla)) = true := by
      rcases hd with h | h <;> rcases hs with h2 | h2 <;> simp [h, h2]
    simp only [PaisService.update, hget, hcond, if_true]
  · intro db now pid
    cases hget : PaisService.get_by_id db pid with
    | none => simp [PaisService.update, hget]
    | some cur => simp [PaisService.update, hget]
  · intro db now eid data cur hget hp hd hs
    have hcond : ((data.pais_id == none || data.pais_id == some cur.pais_id)
        && ((data.descricao == none || data.descricao == some cur.descricao)
          && (data.sigla == none || data.sigla == some cur.sigla))) = true := by
      rcases hp with h | h <;> rcases hd with h2 | h2 <;> rcases hs with h3 | h3 <;>
        simp [h, h2, h3]
    simp only [EstadoService.update, hget, Bool.and_assoc, hcond, if_true]
  · intro db now eid
    cases hget : EstadoService.get_by_id db eid with
    | none => simp [EstadoService.update, hget]
    | some cur => simp [EstadoService.update, hget]
  · intro db now cid data cur hget hp hd hs
    have hcond : ((data.estado_id == none || data.estado_id == some cur.estado_id)
        && ((data.descricao == none || data.descricao == some cur.descricao)
          && (data.sigla == none || data.sigla == cur.sigla))) = true := by
      rcases hp with h | h <;> rcases hd with h2 | h2 <;> rcases hs with h3 | h3 <;>
        simp [h, h2, h3]
    simp only [CidadeService.update, hget, Bool.and_assoc, hcond, if_true]
  · intro db now cid
    cases hget : CidadeService.get_by_id db cid with
    | none => simp [CidadeService.update, hget]
    | some cur => simp [CidadeService.update, hget]

/-- Closed instance of `c3_update_noop`: updating the only country with
its current name is a no-op even though the name collides with itself. -/
theorem c3_update_noop_witness :
    PaisService.update [exPaisAlive] 9 2 { descricao := some "Chile", sigla := none }
      = (some (.inr exPaisAlive), [exPaisAlive]) :=
  c3_update_noop.1 [exPaisAlive] 9 2 { descricao := some "Chile", sigla := none }
    exPaisAlive rfl (Or.inr rfl) (Or.inl rfl)

/-- C9: deleting a country (or state) returns true exactly when a
non-deleted row with that id exists, rewrites only that row and only its
deleted-at field, and leaves the child table untouched, so the children
stay visible through `get_by_parent`. -/
theorem c9_delete_no_cascade :
    (∀ (g : GeoDb) (now pid : Nat),
        (PaisService.delete_db g now pid).1 = (PaisService.get_by_id g.paises pid).isSome
        ∧ (PaisService.delete_db g now pid).2.estados = g.estados
        ∧ (PaisService.delete_db g now pid).2.cidades = g.cidades
        ∧ EstadoService.get_by_pais_id (PaisService.delete_db g now pid).2.estados pid
            = EstadoService.get_by_pais_id g.estados pid
        ∧ (PaisService.get_by_id g.paises pid = none →
            (PaisService.delete_db g now pid).2 = g)
        ∧ (∀ cur, PaisService.get_by_id g.paises pid = some cur →
            ∃ i, g.paises.get? i = some cur
              ∧ (PaisService.delete_db g now pid).2.paises
                  = g.paises.set i { cur with dt_exclusao := some now }))
    ∧ (∀ (g : GeoDb) (now eid : Nat),
        (EstadoService.delete_db g now eid).1
            = (EstadoService.get_by_id g.estados eid).isSome
        ∧ (EstadoService.delete_db g now eid).2.paises = g.paises
        ∧ (EstadoService.delete_db g now eid).2.cidades = g.cidades
        ∧ CidadeService.get_by_estado_id (EstadoService.delete_db g now eid).2.cidades eid
            = CidadeService.get_by_estado_id g.cidades eid
        ∧ (EstadoService.get_by_id g.estados eid = none →
            (EstadoService.delete_db g now eid).2 = g)
        ∧ (∀ cur, EstadoService.get_by_id g.estados eid = some cur →
            ∃ i, g.estados.get? i = some cur
              ∧ (EstadoService.delete_db g now eid).2.estados
                  = g.estados.set i { cur with dt_exclusao := some now })) := by
  constructor
  · intro g now pid
    cases hget : PaisService.get_by_id g.paises pid with
    | none =>
      refine ⟨?_, rfl, rfl, rfl, ?_, ?_⟩
      · simp [PaisService.delete_db, PaisService.delete, hget]
      · intro _
        simp [PaisService.delete_db, PaisService.delete, hget]
      · intro cur hcur
        cases hcur
    | some cur =>
      refine ⟨?_, rfl, rfl, rfl, ?_, ?_⟩
      · simp [PaisService.delete_db, PaisService.delete, hget]
      · intro hno
        cases hno
      · intro cur2 hcur2
        injection hcur2 with hcc
        subst hcc
        obtain ⟨i, hg, hu⟩ := updateFirst_eq_set g.paises
          (fun p => p.id == pid && p.dt_exclusao.isNone)
          (fun p => { p with dt_exclusao := some now }) cur hget
        refine ⟨i, hg, ?_⟩
        simp [PaisService.delete_db, PaisService.delete, hget, hu]
  · intro g now eid
    cases hget : EstadoService.get_by_id g.estados eid with
    | none =>
      refine ⟨?_, rfl, rfl, rfl, ?_, ?_⟩
      · simp [EstadoService.delete_db, EstadoService.delete, hget]
      · intro _
        simp [EstadoService.delete_db, EstadoService.delete, hget]
      · intro cur hcur
        cases hcur
    | some cur =>
      refine ⟨?_, rfl, rfl, rfl, ?_, ?_⟩
      · simp [EstadoService.delete_db, EstadoService.delete, hget]
      · intro hno
        cases hno
      · intro cur2 hcur2
        injection hcur2 with hcc
        subst hcc
        obtain ⟨i, hg, hu⟩ := updateFirst_eq_set g.estados
          (fun e => e.id == eid && e.dt_exclusao.isNone)
          (fun e => { e with dt_exclusao := some now }) cur hget
        refine ⟨i, hg, ?_⟩
        simp [EstadoService.delete_db, EstadoService.delete, hget, hu]

/-- Closed instance of `c9_delete_no_cascade`: deleting the country
reports found and leaves its state child table and child listing as is. -/
theorem c9_delete_no_cascade_witness :
    (PaisService.delete_db exGeoDb 99 2).1
        = (PaisService.get_by_id exGeoDb.paises 2).isSome
      ∧ (PaisService.delete_db exGeoDb 99 2).2.estados = exGeoDb.estados
      ∧ EstadoService.get_by_pais_id (PaisService.delete_db exGeoDb 99 2).2.estados 2
          = EstadoService.get_by_pais_id exGeoDb.estados 2 :=
  ⟨((c9_delete_no_cascade.1 exGeoDb 99 2)).1,
   ((c9_delete_no_cascade.1 exGeoDb 99 2)).2.1,
   ((c9_delete_no_cascade.1 exGeoDb 99 2)).2.2.2.1⟩

/-- C4 counterexample: a city created with code " sp " keeps the code
verbatim — the create schema has no code validator for cities — so the
claimed "codes trimmed and uppercased" fails for city codes. -/
theorem c4_city_code_not_normalized :
    (CidadeService.create [] 1 0 (mkCreateCidade 5 "campinas" (some " sp "))).1
        = some (.inr
            { id := 1
              estado_id := 5
              descricao := "Campinas"
              sigla := some " sp "
              dt_criacao := 0
              dt_atualizacao := 0
              dt_exclusao := none })
      ∧ (" sp " : String) ≠ pyUpper (pyStrip " sp ") := by
  exact ⟨by rfl, by decide⟩

/-- C4 (amended): create-then-get round-trips the normalized payload —
country and state names title-cased and codes uppercased after trimming,
city names title-cased with the city code stored as supplied, and the
postal code digits-reduced and dash-formatted at exactly 8 digits. -/
theorem c4_create_roundtrip_normalized :
    (∀ (db : List Pais) (nextId now : Nat) (rawD rawS : String) (e : Pais)
        (db2 : List Pais),
        (∀ p ∈ db, p.id ≠ nextId) →
        PaisService.create db nextId now (mkCreatePais rawD rawS) = (.inr e, db2) →
        PaisService.get_by_id db2 e.id = some e
          ∧ e.descricao = pyTitle (pyStrip rawD)
          ∧ e.sigla = pyUpper (pyStrip rawS))
    ∧ (∀ (db : List Estado) (nextId now pid : Nat) (rawD rawS : String) (e : Estado)
        (db2 : List Estado),
        (∀ x ∈ db, x.id ≠ nextId) →
        EstadoService.create db nextId now (mkCreateEstado pid rawD rawS)
            = (some (.inr e), db2) →
        EstadoService.get_by_id db2 e.id = some e
          ∧ e.descricao = pyTitle (pyStrip rawD)
          ∧ e.sigla = pyUpper (pyStrip rawS)
          ∧ e.pais_id = pid)
    ∧ (∀ (db : List Cidade) (nextId now eid : Nat) (rawD : String)
        (rawSigla : Option String) (e : Cidade) (db2 : List Cidade),
        (∀ x ∈ db, x.id ≠ nextId) →
        CidadeService.create db nextId now (mkCreateCidade eid rawD rawSigla)
            = (some (.inr e), db2) →
        CidadeService.get_by_id db2 e.id = some e
          ∧ e.descricao = pyTitle (pyStrip rawD)
          ∧ e.sigla = rawSigla
          ∧ e.estado_id = eid)
    ∧ (∀ cid rawCep comp, (mkCreateEndereco cid rawCep comp).cep = formatar_cep rawCep)
    ∧ (∀ s : String, formatar_cep (some s) =
        some (if (digitsOnly s).length = 8 then
            String.mk ((s.toList.filter Char.isDigit).take 5) ++ "-"
              ++ String.mk ((s.toList.filter Char.isDigit).drop 5)
          else digitsOnly s))
    ∧ (∀ (db : UsuarioDb) (nE nU salt : Nat) (data : CreateUsuarioData)
        (u : Usuario) (db2 : UsuarioDb),
        UsuarioService.create db nE nU salt data = .ok (u, db2) →
        db2.enderecos = db.enderecos ++
          [{ id := nE
             cidade_id := data.endereco.cidade_id
             cep := data.endereco.cep
             complemento := data.endereco.complemento
             dt_exclusao := none }]) := by
  refine ⟨?_, ?_, ?_, fun cid rawCep comp => rfl, ?_, ?_⟩
  · intro db nextId now rawD rawS e db2 hfresh hcreate
    rcases hcd : PaisService.check_duplicate db (mkCreatePais rawD rawS).descricao
        (mkCreatePais rawD rawS).sigla with ⟨b, msg⟩
    cases b with
    | true =>
      simp only [PaisService.create, hcd] at hcreate
      exact absurd hcreate (by simp)
    | false =>
      simp only [PaisService.create, hcd, Prod.mk.injEq] at hcreate
      obtain ⟨h1, h2⟩ := hcreate
      rw [Sum.inr.injEq] at h1
      subst h1
      subst h2
      refine ⟨?_, rfl, rfl⟩
      unfold PaisService.get_by_id
      rw [List.find?_append]
      have hnone : db.find? (fun p =>
          p.id == nextId && p.dt_exclusao.isNone) = none := by
        rw [List.find?_eq_none]
        intro p hp
        simp [hfresh p hp]
      rw [hnone]
      simp
  · intro db nextId now pid rawD rawS e db2 hfresh hcreate
    rcases hcd : EstadoService.check_duplicate db (mkCreateEstado pid rawD rawS).pais_id
        (mkCreateEstado pid rawD rawS).descricao
        (mkCreateEstado pid rawD rawS).sigla with ⟨b, msg⟩
    cases b with
    | true =>
      simp only [EstadoService.create, hcd] at hcreate
      exact absurd hcreate (by simp)
    | false =>
      have hlookup : EstadoService.get_by_id (db ++
          [{ id := nextId
             pais_id := (mkCreateEstado pid rawD rawS).pais_id
             descricao := (mkCreateEstado pid rawD rawS).descricao
             sigla := (mkCreateEstado pid rawD rawS).sigla
             dt_criacao := now
             dt_atualizacao := now
             dt_exclusao := none }]) nextId = some
          { id := nextId
            pais_id := (mkCreateEstado pid rawD rawS).pais_id
            descricao := (mkCreateEstado pid rawD rawS).descricao
            sigla := (mkCreateEstado pid rawD rawS).sigla
            dt_criacao := now
            dt_atualizacao := now
            dt_exclusao := none } := by
        unfold EstadoService.get_by_id
        rw [List.find?_append]
        have hnone : db.find? (fun x =>
            x.id == nextId && x.dt_exclusao.isNone) = none := by
          rw [List.find?_eq_none]
          intro x hx
          simp [hfresh x hx]
        rw [hnone]
        simp
      simp only [EstadoService.create, hcd, hlookup, Prod.mk.injEq] at hcreate
      obtain ⟨h1, h2⟩ := hcreate
      rw [Option.some.injEq, Sum.inr.injEq] at h1
      subst h1
      subst h2
      exact ⟨hlookup, rfl, rfl, rfl⟩
  · intro db nextId now eid rawD rawSigla e db2 hfresh hcreate
    rcases hcd : CidadeService.check_duplicate db (mkCreateCidade eid rawD rawSigla).estado_id
        (mkCreateCidade eid rawD rawSigla).descricao
        (mkCreateCidade eid rawD rawSigla).sigla with ⟨b, msg⟩
    cases b with
    | true =>
      simp only [CidadeService.create, hcd] at hcreate
      exact absurd hcreate (by simp)
    | false =>
      have hlookup : CidadeService.get_by_id (db ++
          [{ id := nextId
             estado_id := (mkCreateCidade eid rawD rawSigla).estado_id
             descricao := (mkCreateCidade eid rawD rawSigla).descricao
             sigla := (mkCreateCidade eid rawD rawSigla).sigla
             dt_criacao := now
             dt_atualizacao := now
             dt_exclusao := none }]) nextId = some
          { id := nextId
            estado_id := (mkCreateCidade eid rawD rawSigla).estado_id
            descricao := (mkCreateCidade eid rawD rawSigla).descricao
            sigla := (mkCreateCidade eid rawD rawSigla).sigla
            dt_criacao := now
            dt_atualizacao := now
            dt_exclusao := none } := by
        unfold CidadeService.get_by_id
        rw [List.find?_append]
        have hnone : db.find? (fun x =>
            x.id == nextId && x.dt_exclusao.isNone) = none := by
          rw [List.find?_eq_none]
          intro x hx
          simp [hfresh x hx]
        rw [hnone]
        simp
      simp only [CidadeService.create, hcd, hlookup, Prod.mk.injEq] at hcreate
      obtain ⟨h1, h2⟩ := hcreate
      rw [Option.some.injEq, Sum.inr.injEq] at h1
      subst h1
      subst h2
      exact ⟨hlookup, rfl, rfl, rfl⟩
  · intro s
    simp only [formatar_cep, digitsOnly, String.length, String.toList]
    by_cases hlen : (List.filter Char.isDigit s.data).length = 8
    · simp [hlen]
    · simp [hlen]
  · intro db nE nU salt data u db2 hok
    cases hcpf : UsuarioService.get_by_cpf_cnpj db.usuarios data.cpf_cnpj with
    | some v =>
      simp only [UsuarioService.create, hcpf] at hok
      exact absurd hok (by simp)
    | none =>
      cases hcond : (match data.email with
          | some e => e != "" && (UsuarioService.get_by_email db.usuarios e).isSome
          | none => false) with
      | true =>
        simp only [UsuarioService.create, hcpf, hcond] at hok
        exact absurd hok (by simp)
      | false =>
        simp only [UsuarioService.create, hcpf, hcond, Bool.false_eq_true, if_false] at hok
        rw [Except.ok.injEq, Prod.mk.injEq] at hok
        rw [← hok.2]

/-- Closed instance of `c4_create_roundtrip_normalized`: creating
" brazil" / "br " stores "Brazil" / "BR" and the row is retrievable. -/
theorem c4_create_roundtrip_normalized_witness :
    PaisService.get_by_id
        (PaisService.create [] 1 10 (mkCreatePais " brazil" "br ")).2 1
      = some
        { id := 1
          descricao := "Brazil"
          sigla := "BR"
          dt_criacao := 10
          dt_atualizacao := 10
          dt_exclusao := none } := by
  have h := c4_create_roundtrip_normalized.1 [] 1 10 " brazil" "br "
    { id := 1
      descricao := "Brazil"
      sigla := "BR"
      dt_criacao := 10
      dt_atualizacao := 10
      dt_exclusao := none }
    [{ id := 1
       descricao := "Brazil"
       sigla := "BR"
       dt_criacao := 10
       dt_atualizacao := 10
       dt_exclusao := none }]
    (by intro p hp; cases hp) (by rfl)
  exact h.1

/-- C8: user create conflicts exactly when some non-deleted user matches
the new tax-id after both are reduced to digits (covering the exact
lookup and the fallback scan) or, for a supplied non-empty email, matches
it case-insensitively; on success the address row is appended with the
pre-assigned id and the user row references that id. -/
theorem c8_user_create_uniqueness (db : UsuarioDb) (nE nU salt : Nat)
    (data : CreateUsuarioData) :
    ((∃ msg, UsuarioService.create db nE nU salt data = .error msg) ↔
      ((∃ u ∈ db.usuarios, u.dt_exclusao = none ∧
          digitsOnly u.cpf_cnpj = digitsOnly data.cpf_cnpj)
        ∨ (∃ e, data.email = some e ∧ e ≠ "" ∧
            ∃ v ∈ db.usuarios, v.dt_exclusao = none ∧
              ∃ ev, v.email = some ev ∧ pyLower ev = pyLower e)))
    ∧ (∀ u db2, UsuarioService.create db nE nU salt data = .ok (u, db2) →
        u.endereco_id = nE
        ∧ db2.enderecos = db.enderecos ++
            [{ id := nE
               cidade_id := data.endereco.cidade_id
               cep := data.endereco.cep
               complemento := data.endereco.complemento
               dt_exclusao := none }]
        ∧ db2.usuarios = db.usuarios ++ [u]) := by
  refine ⟨usuario_create_error_iff db nE nU salt data, ?_⟩
  intro u db2 hok
  cases hcpf : UsuarioService.get_by_cpf_cnpj db.usuarios data.cpf_cnpj with
  | some v =>
    simp only [UsuarioService.create, hcpf] at hok
    exact absurd hok (by simp)
  | none =>
    cases hcond : (match data.email with
        | some e => e != "" && (UsuarioService.get_by_email db.usuarios e).isSome
        | none => false) with
    | true =>
      simp only [UsuarioService.create, hcpf, hcond] at hok
      exact absurd hok (by simp)
    | false =>
      simp only [UsuarioService.create, hcpf, hcond, Bool.false_eq_true, if_false] at hok
      rw [Except.ok.injEq, Prod.mk.injEq] at hok
      obtain ⟨h1, h2⟩ := hok
      refine ⟨by rw [← h1], by rw [← h2], ?_⟩
      rw [← h2, ← h1]

/-- Closed instance of `c8_user_create_uniqueness`: a create carrying the
digits-only form of an existing punctuated tax-id is rejected. -/
theorem c8_user_create_uniqueness_witness :
    ∃ msg, UsuarioService.create
        { usuarios := [exUsuario], enderecos := [] } 1 2 0
        { cpf_cnpj := "12345678900"
          senha := "abc"
          nome := "Bea"
          email := none
          telefone := none
          whatsapp := none
          perfil_id := 1
          endereco := { cidade_id := 1, cep := none, complemento := none } }
      = .error msg :=
  (c8_user_create_uniqueness { usuarios := [exUsuario], enderecos := [] } 1 2 0
    { cpf_cnpj := "12345678900"
      senha := "abc"
      nome := "Bea"
      email := none
      telefone := none
      whatsapp := none
      perfil_id := 1
      endereco := { cidade_id := 1, cep := none, complemento := none } }).1.mpr
    (Or.inl ⟨exUsuario, by simp, rfl, by decide⟩)

/-- C10: when the email field is absent or empty, user create runs no
email uniqueness check — it fails exactly on a tax-id clash — and the
email lookup itself short-circuits to nothing on the empty string, so any
number of non-deleted users without an email can coexist. -/
theorem c10_email_check_only_when_supplied (db : UsuarioDb) (nE nU salt : Nat)
    (data : CreateUsuarioData)
    (hmail : data.email = none ∨ data.email = some "") :
    ((∃ msg, UsuarioService.create db nE nU salt data = .error msg) ↔
      (∃ u ∈ db.usuarios, u.dt_exclusao = none ∧
        digitsOnly u.cpf_cnpj = digitsOnly data.cpf_cnpj))
    ∧ UsuarioService.get_by_email db.usuarios "" = none := by
  refine ⟨?_, rfl⟩
  rw [usuario_create_error_iff db nE nU salt data]
  constructor
  · rintro (h | ⟨e, he, hne, -⟩)
    · exact h
    · rcases hmail with hm | hm <;> rw [hm] at he
      · cases he
      · injection he with he2
        exact absurd he2.symm hne
  · exact Or.inl

/-- Closed instance of `c10_email_check_only_when_supplied`: with two
email-less users in play, the only possible rejection is a tax-id clash. -/
theorem c10_email_check_only_when_supplied_witness :
    ((∃ msg, UsuarioService.create
        { usuarios := [{ exUsuario with email := none }], enderecos := [] } 1 2 0
        { cpf_cnpj := "987.654.321-00"
          senha := "abc"
          nome := "Bea"
          email := none
          telefone := none
          whatsapp := none
          perfil_id := 1
          endereco := { cidade_id := 1, cep := none, complemento := none } }
      = .error msg) ↔
      (∃ u ∈ [{ exUsuario with email := none }], u.dt_exclusao = none ∧
        digitsOnly u.cpf_cnpj = digitsOnly "987.654.321-00"))
    ∧ UsuarioService.get_by_email [{ exUsuario with email := none }] "" = none :=
  c10_email_check_only_when_supplied
    { usuarios := [{ exUsuario with email := none }], enderecos := [] } 1 2 0
    { cpf_cnpj := "987.654.321-00"
      senha := "abc"
      nome := "Bea"
      email := none
      telefone := none
      whatsapp := none
      perfil_id := 1
      endereco := { cidade_id := 1, cep := none, complemento := none } }
    (Or.inl rfl)

/-- C5: authentication succeeds exactly when the lookup resolves the
tax-id and the plaintext verifies against the stored hash; a wrong
current password makes `change_password` fail with the validation error;
after a successful `change_password`, authentication succeeds with the
new password and fails for every other string — in particular for the
previous password. -/
theorem c5_password_roundtrip :
    (∀ (db : List Usuario) (cpf senha : String) (u : Usuario),
        UsuarioService.authenticate_user db cpf senha = some u ↔
          (UsuarioService.get_by_cpf_cnpj db cpf = some u
            ∧ UsuarioService.verify_password senha u.senha = true))
    ∧ (∀ (db : List Usuario) (uid salt : Nat) (wrong nova : String) (u : Usuario),
        UsuarioService.get_by_id db uid = some u →
        UsuarioService.verify_password wrong u.senha = false →
        UsuarioService.change_password db uid salt wrong nova
          = .error "Senha atual incorreta")
    ∧ (∀ (db : List Usuario) (uid salt : Nat) (atual nova : String) (u : Usuario),
        UsuarioService.get_by_id db uid = some u →
        UsuarioService.verify_password atual u.senha = true →
        UsuarioService.get_by_cpf_cnpj db u.cpf_cnpj = some u →
        UsuarioService.change_password db uid salt atual nova
            = .ok (true, db.map fun v =>
                if v.id == uid then
                  { v with senha := UsuarioService.hash_password salt nova }
                else v)
          ∧ UsuarioService.authenticate_user
              (db.map fun v =>
                if v.id == uid then
                  { v with senha := UsuarioService.hash_password salt nova }
                else v)
              u.cpf_cnpj nova
            = some { u with senha := UsuarioService.hash_password salt nova }
          ∧ (∀ s, s ≠ nova →
              UsuarioService.authenticate_user
                (db.map fun v =>
                  if v.id == uid then
                    { v with senha := UsuarioService.hash_password salt nova }
                  else v)
                u.cpf_cnpj s = none)) := by
  refine ⟨?_, ?_, ?_⟩
  · intro db cpf senha u
    unfold UsuarioService.authenticate_user
    cases hget : UsuarioService.get_by_cpf_cnpj db cpf with
    | none =>
      simp only [UsuarioService.authenticate_user, hget]
      constructor
      · intro h; cases h
      · rintro ⟨h1, -⟩; cases h1
    | some v =>
      simp only [UsuarioService.authenticate_user, hget]
      by_cases hv : UsuarioService.verify_password senha v.senha = true
      · rw [if_pos hv]
        constructor
        · intro h
          injection h with h1
          subst h1
          exact ⟨rfl, hv⟩
        · rintro ⟨h1, -⟩
          exact h1
      · rw [if_neg hv]
        constructor
        · intro h; cases h
        · rintro ⟨h1, h2⟩
          injection h1 with h1
          subst h1
          exact absurd h2 hv
  · intro db uid salt wrong nova u hget hv
    simp only [UsuarioService.change_password, hget]
    rw [if_pos (by simp [hv])]
  · intro db uid salt atual nova u hget hv hcpf
    have hid : (u.id == uid) = true := by
      have h1 := List.find?_some hget
      simp only [Bool.and_eq_true] at h1
      exact h1.1
    have hfu : (fun v => if v.id == uid then
          { v with senha := UsuarioService.hash_password salt nova } else v) u
        = { u with senha := UsuarioService.hash_password salt nova } := by
      simp only [hid, if_true]
    have hmap := get_by_cpf_cnpj_map_senha db u.cpf_cnpj uid
      (UsuarioService.hash_password salt nova)
    rw [hcpf] at hmap
    have hmap2 : UsuarioService.get_by_cpf_cnpj
        (db.map fun v => if v.id == uid then
          { v with senha := UsuarioService.hash_password salt nova } else v)
        u.cpf_cnpj
        = some { u with senha := UsuarioService.hash_password salt nova } := by
      rw [hmap]
      exact congrArg some hfu
    refine ⟨?_, ?_, ?_⟩
    · simp only [UsuarioService.change_password, hget]
      rw [if_neg (by simp [hv])]
    · simp only [UsuarioService.authenticate_user, hmap2]
      rw [if_pos (by simp [UsuarioService.verify_password, UsuarioService.hash_password])]
    · intro s hs
      simp only [UsuarioService.authenticate_user, hmap2]
      rw [if_neg (by simp [UsuarioService.verify_password, UsuarioService.hash_password, hs])]

/-- Closed instance of `c5_password_roundtrip`: after changing the
password from "hunter2" to "new-pass", the new password authenticates and
the previous one no longer does. -/
theorem c5_password_roundtrip_witness :
    UsuarioService.change_password [exUsuario] 7 4 "hunter2" "new-pass"
        = .ok (true, [exUsuario].map fun v =>
            if v.id == 7 then
              { v with senha := UsuarioService.hash_password 4 "new-pass" }
            else v)
      ∧ UsuarioService.authenticate_user
          ([exUsuario].map fun v =>
            if v.id == 7 then
              { v with senha := UsuarioService.hash_password 4 "new-pass" }
            else v)
          exUsuario.cpf_cnpj "new-pass"
        = some { exUsuario with senha := UsuarioService.hash_password 4 "new-pass" }
      ∧ UsuarioService.authenticate_user
          ([exUsuario].map fun v =>
            if v.id == 7 then
              { v with senha := UsuarioService.hash_password 4 "new-pass" }
            else v)
          exUsuario.cpf_cnpj "hunter2" = none := by
  have h := c5_password_roundtrip.2.2 [exUsuario] 7 4 "hunter2" "new-pass" exUsuario
    rfl rfl rfl
  exact ⟨h.1, h.2.1, h.2.2 "hunter2" (by decide)⟩

/-- C1: for each geographic registry, when two sibling create requests
collide case-insensitively on name (or code) under the same parent and
the first request has no collision among the existing non-deleted
siblings, the first create returns the created entity and the second
returns a duplicate-conflict message instead of an entity. -/
theorem c1_sibling_duplicate_creates :
    (∀ (db : List Pais) (n1 t1 n2 t2 : Nat) (d1 d2 : CreatePais),
        (pyLower d1.descricao = pyLower d2.descricao
          ∨ pyLower d1.sigla = pyLower d2.sigla) →
        (PaisService.check_duplicate db d1.descricao d1.sigla).1 = false →
        ∃ e db2, PaisService.create db n1 t1 d1 = (.inr e, db2)
          ∧ ∃ msg, (PaisService.create db2 n2 t2 d2).1 = .inl msg)
    ∧ (∀ (db : List Estado) (n1 t1 n2 t2 : Nat) (d1 d2 : CreateEstado),
        d1.pais_id = d2.pais_id →
        (∀ x ∈ db, x.id ≠ n1) →
        (pyLower d1.descricao = pyLower d2.descricao
          ∨ pyLower d1.sigla = pyLower d2.sigla) →
        (EstadoService.check_duplicate db d1.pais_id d1.descricao d1.sigla).1 = false →
        ∃ e db2, EstadoService.create db n1 t1 d1 = (some (.inr e), db2)
          ∧ ∃ msg, (EstadoService.create db2 n2 t2 d2).1 = some (.inl msg))
    ∧ (∀ (db : List Cidade) (n1 t1 n2 t2 : Nat) (d1 d2 : CreateCidade),
        d1.estado_id = d2.estado_id →
        (∀ x ∈ db, x.id ≠ n1) →
        (pyLower d1.descricao = pyLower d2.descricao
          ∨ (∃ s1 s2, d1.sigla = some s1 ∧ d2.sigla = some s2 ∧ s2 ≠ ""
              ∧ pyLower s1 = pyLower s2)) →
        (CidadeService.check_duplicate db d1.estado_id d1.descricao d1.sigla).1 = false →
        ∃ e db2, CidadeService.create db n1 t1 d1 = (some (.inr e), db2)
          ∧ ∃ msg, (CidadeService.create db2 n2 t2 d2).1 = some (.inl msg)) := by
  refine ⟨?_, ?_, ?_⟩
  · intro db n1 t1 n2 t2 d1 d2 hcol hfirst
    rcases hc : PaisService.check_duplicate db d1.descricao d1.sigla with ⟨b, mm⟩
    have hb : b = false := by rw [hc] at hfirst; exact hfirst
    subst hb
    set e1 : Pais :=
      { id := n1
        descricao := d1.descricao
        sigla := d1.sigla
        dt_criacao := t1
        dt_atualizacao := t1
        dt_exclusao := none } with he1
    have hcreate1 : PaisService.create db n1 t1 d1 = (.inr e1, db ++ [e1]) := by
      simp only [PaisService.create, hc]
    have hpe : PaisService.dupPred d2.descricao d2.sigla none e1 = true := by
      unfold PaisService.dupPred
      rcases hcol with h | h <;> simp [he1, h]
    have hfind2 : ∃ w, (db ++ [e1]).find?
        (PaisService.dupPred d2.descricao d2.sigla none) = some w := by
      rw [List.find?_append]
      cases hf2 : db.find? (PaisService.dupPred d2.descricao d2.sigla none) with
      | some w => exact ⟨w, rfl⟩
      | none => exact ⟨e1, by simp [hpe]⟩
    obtain ⟨w, hw⟩ := hfind2
    have hcd2 : ∃ m, PaisService.check_duplicate (db ++ [e1])
        d2.descricao d2.sigla = (true, some m) := by
      by_cases hn : (pyLower w.descricao == pyLower d2.descricao) = true
      · exact ⟨_, by simp only [PaisService.check_duplicate, hw, if_pos hn]; rfl⟩
      · exact ⟨_, by simp only [PaisService.check_duplicate, hw, if_neg hn]; rfl⟩
    obtain ⟨m, hm⟩ := hcd2
    exact ⟨e1, db ++ [e1], hcreate1, m, by simp [PaisService.create, hm]⟩
  · intro db n1 t1 n2 t2 d1 d2 hparent hfresh hcol hfirst
    rcases hc : EstadoService.check_duplicate db d1.pais_id d1.descricao d1.sigla
      with ⟨b, mm⟩
    have hb : b = false := by rw [hc] at hfirst; exact hfirst
    subst hb
    set e1 : Estado :=
      { id := n1
        pais_id := d1.pais_id
        descricao := d1.descricao
        sigla := d1.sigla
        dt_criacao := t1
        dt_atualizacao := t1
        dt_exclusao := none } with he1
    have hlookup : EstadoService.get_by_id (db ++ [e1]) n1 = some e1 := by
      unfold EstadoService.get_by_id
      rw [List.find?_append]
      have hnone : db.find? (fun x => x.id == n1 && x.dt_exclusao.isNone) = none := by
        rw [List.find?_eq_none]
        intro x hx
        simp [hfresh x hx]
      rw [hnone]
      simp [he1]
    have hcreate1 : EstadoService.create db n1 t1 d1 = (some (.inr e1), db ++ [e1]) := by
      simp only [EstadoService.create, hc, hlookup]
    have hpe : EstadoService.dupPred d2.pais_id d2.descricao d2.sigla none e1 = true := by
      unfold EstadoService.dupPred
      rcases hcol with h | h <;> simp [he1, h, hparent]
    have hfind2 : ∃ w, (db ++ [e1]).find?
        (EstadoService.dupPred d2.pais_id d2.descricao d2.sigla none) = some w := by
      rw [List.find?_append]
      cases hf2 : db.find? (EstadoService.dupPred d2.pais_id d2.descricao d2.sigla none) with
      | some w => exact ⟨w, rfl⟩
      | none => exact ⟨e1, by simp [hpe]⟩
    obtain ⟨w, hw⟩ := hfind2
    have hcd2 : ∃ m, EstadoService.check_duplicate (db ++ [e1])
        d2.pais_id d2.descricao d2.sigla = (true, some m) := by
      by_cases hn : (pyLower w.descricao == pyLower d2.descricao) = true
      · exact ⟨_, by simp only [EstadoService.check_duplicate, hw, if_pos hn]; rfl⟩
      · exact ⟨_, by simp only [EstadoService.check_duplicate, hw, if_neg hn]; rfl⟩
    obtain ⟨m, hm⟩ := hcd2
    exact ⟨e1, db ++ [e1], hcreate1, m, by simp [EstadoService.create, hm]⟩
  · intro db n1 t1 n2 t2 d1 d2 hparent hfresh hcol hfirst
    rcases hc : CidadeService.check_duplicate db d1.estado_id d1.descricao d1.sigla
      with ⟨b, mm⟩
    have hb : b = false := by rw [hc] at hfirst; exact hfirst
    subst hb
    set e1 : Cidade :=
      { id := n1
        estado_id := d1.estado_id
        descricao := d1.descricao
        sigla := d1.sigla
        dt_criacao := t1
        dt_atualizacao := t1
        dt_exclusao := none } with he1
    have hlookup : CidadeService.get_by_id (db ++ [e1]) n1 = some e1 := by
      unfold CidadeService.get_by_id
      rw [List.find?_append]
      have hnone : db.find? (fun x => x.id == n1 && x.dt_exclusao.isNone) = none := by
        rw [List.find?_eq_none]
        intro x hx
        simp [hfresh x hx]
      rw [hnone]
      simp [he1]
    have hcreate1 : CidadeService.create db n1 t1 d1 = (some (.inr e1), db ++ [e1]) := by
      simp only [CidadeService.create, hc, hlookup]
    have hcd2 : ∃ m, CidadeService.check_duplicate (db ++ [e1])
        d2.estado_id d2.descricao d2.sigla = (true, some m) := by
      cases hfn : (db ++ [e1]).find?
          (CidadeService.dupPredNome d2.estado_id d2.descricao none) with
      | some w => exact ⟨_, by simp only [CidadeService.check_duplicate, hfn]; rfl⟩
      | none =>
        rcases hcol with h | ⟨s1, s2, hs1, hs2, hne2, hlse⟩
        · exfalso
          have hpe : CidadeService.dupPredNome d2.estado_id d2.descricao none e1 = true := by
            unfold CidadeService.dupPredNome
            simp [he1, h, hparent]
          rw [List.find?_append] at hfn
          cases hf2 : db.find? (CidadeService.dupPredNome d2.estado_id d2.descricao none) with
          | some w => rw [hf2] at hfn; cases hfn
          | none =>
            rw [hf2] at hfn
            simp [hpe] at hfn
        · have hpe : CidadeService.dupPredSigla d2.estado_id s2 none e1 = true := by
            unfold CidadeService.dupPredSigla
            simp [he1, hs1, hlse, hparent]
          have hfind2 : ∃ w, (db ++ [e1]).find?
              (CidadeService.dupPredSigla d2.estado_id s2 none) = some w := by
            rw [List.find?_append]
            cases hf2 : db.find? (CidadeService.dupPredSigla d2.estado_id s2 none) with
            | some w => exact ⟨w, rfl⟩
            | none => exact ⟨e1, by simp [hpe]⟩
          obtain ⟨w, hw⟩ := hfind2
          exact ⟨_, by
            simp only [CidadeService.check_duplicate, hfn, hs2]
            rw [if_pos hne2]
            simp only [hw]
            rfl⟩
    obtain ⟨m, hm⟩ := hcd2
    exact ⟨e1, db ++ [e1], hcreate1, m, by simp [CidadeService.create, hm]⟩

/-- Closed instance of `c1_sibling_duplicate_creates`: on an empty table,
creating "brazil"/"br" succeeds and a second create "BRAZIL"/"xx" with
the case-insensitively equal name is rejected with a message. -/
theorem c1_sibling_duplicate_creates_witness :
    ∃ e db2, PaisService.create [] 1 10 (mkCreatePais "brazil" "br")
        = (.inr e, db2)
      ∧ ∃ msg, (PaisService.create db2 2 11 (mkCreatePais "BRAZIL" "xx")).1
        = .inl msg :=
  c1_sibling_duplicate_creates.1 [] 1 10 2 11 (mkCreatePais "brazil" "br")
    (mkCreatePais "BRAZIL" "xx") (Or.inl (by decide)) rfl
